import Mathlib

/-!
Verification of the grid-alignment and change-detection pipeline of
`jp2_to_tif_batch.py` (NDVI differencing between a 2020 and a 2024
Sentinel-2 scene).

Modelling conventions:
* A floating-point sample is modelled as `Val`, an `Option ℚ`: `none` is NaN
  (the no-data sentinel), `some q` a finite value.  Infinities are not
  modelled; the only place the script could produce one (division by a
  zero denominator in `compute_ndvi`) is discarded by the `np.where`
  guard there, so `vDiv` returns `none` for a zero divisor.
* A NumPy 2-D float array is `NGrid` (shape plus a sample function), a
  boolean array is `BGrid`.  An elementwise operation carries the shape
  of the array the script's expression takes it from; NumPy demands
  equal shapes, and every claim under study only combines same-shape
  arrays, as the script does.
* The cast `astype(float32)` is modelled as the identity on samples: the
  claims under study concern NaN placement, comparisons against exactly
  representable constants, and membership in the set of written values,
  all of which the float32 cast of the script preserves.
* File names and directory listings (for `find_band`) are lists of
  characters; `glob.glob` over a directory with the pattern
  `*<band_tag>*.tif*` is modelled as filtering the directory's listing
  by the pattern matcher `matchesBandPatt`.
-/

/-- A float sample: `none` is NaN / no-data, `some q` a finite value. -/
def Val := Option ℚ
deriving DecidableEq, Inhabited

/-- Float addition, one lane: NaN propagates. -/
def vAdd : Val → Val → Val
  | some a, some b => some (a + b)
  | _, _ => none

/-- Float subtraction, one lane: NaN propagates. -/
def vSub : Val → Val → Val
  | some a, some b => some (a - b)
  | _, _ => none

/-- Float division, one lane: NaN propagates; a zero divisor yields
no-data (the script divides by zero only behind its
`np.where(denom == 0, nan, …)` guard, which throws that lane away, so
the inf/NaN cases there collapse to `none`). -/
def vDiv : Val → Val → Val
  | some a, some b => if b = 0 then none else some (a / b)
  | _, _ => none

/-- The NumPy comparison `== 0` on one float lane: NaN compares unequal
to everything. -/
def vEqZero : Val → Bool
  | some a => a == 0
  | none => false

/-- The NumPy comparison `<` of a float lane against a scalar: any
comparison with NaN is false. -/
def vLtB : Val → ℚ → Bool
  | some a, t => decide (a < t)
  | none, _ => false

/-- The test `np.isnan` on one lane. -/
def vIsNaN : Val → Bool
  | none => true
  | some _ => false

/-- The clamp `np.clip(·, lo, hi)` on one lane: NaN passes through. -/
def vClip (lo hi : ℚ) : Val → Val
  | some a => some (min hi (max lo a))
  | none => none

/-- A NumPy 2-D float array: shape plus a sample at each (row, col). -/
structure NGrid where
  height : ℕ
  width : ℕ
  data : ℕ → ℕ → Val

/-- A NumPy 2-D boolean array. -/
structure BGrid where
  height : ℕ
  width : ℕ
  data : ℕ → ℕ → Bool

/-- The `.shape` of an array. -/
def shape (A : NGrid) : ℕ × ℕ :=
  (A.height, A.width)

/-- Elementwise binary operation on two (same-shape) arrays. -/
def gZipWith (f : Val → Val → Val) (A B : NGrid) : NGrid :=
  ⟨A.height, A.width, fun i j => f (A.data i j) (B.data i j)⟩

/-- Elementwise unary operation. -/
def gMap (f : Val → Val) (A : NGrid) : NGrid :=
  ⟨A.height, A.width, fun i j => f (A.data i j)⟩

/-- The select `np.where(denom == 0, np.nan, x)`. -/
def gWhereZeroNan (denom x : NGrid) : NGrid :=
  ⟨denom.height, denom.width, fun i j =>
    if vEqZero (denom.data i j) then none else x.data i j⟩

/-- The clamp `np.clip(A, lo, hi)`. -/
def gClip (lo hi : ℚ) (A : NGrid) : NGrid :=
  gMap (vClip lo hi) A

/-- Source lines 43–47, `compute_ndvi(nir, red)`:
`denom = nir + red`;
`ndvi = np.where(denom == 0, np.nan, (nir - red) / denom)`;
`ndvi = np.clip(ndvi, -1, 1)`. -/
def compute_ndvi (nir red : NGrid) : NGrid :=
  let denom := gZipWith vAdd nir red
  let ndvi := gWhereZeroNan denom (gZipWith vDiv (gZipWith vSub nir red) denom)
  gClip (-1) 1 ndvi

/-- A rasterio affine transform: six coefficients, with `a` at index 0
(pixel width) and `e` at index 4 (signed pixel height). -/
structure Transform where
  a : ℚ
  b : ℚ
  c : ℚ
  d : ℚ
  e : ℚ
  f : ℚ
deriving DecidableEq

/-- The spec's Grid Descriptor: dimensions, affine transform and CRS
(the CRS an opaque identifier). -/
structure Descriptor where
  height : ℕ
  width : ℕ
  transform : Transform
  crs : String
deriving DecidableEq

/-- A rasterio profile as the script uses it: the descriptor fields
plus the creation options `save_tif` overrides. -/
structure Profile where
  height : ℕ
  width : ℕ
  transform : Transform
  crs : String
  dtype : String
  count : ℕ
  nodata : Val
deriving DecidableEq

/-- The Grid Descriptor a profile carries. -/
def Profile.descriptor (p : Profile) : Descriptor :=
  ⟨p.height, p.width, p.transform, p.crs⟩

/-- A float array together with its georeference, as produced by
`read_band` / `reproject_to_match`. -/
structure GeoGrid where
  grid : NGrid
  transform : Transform
  crs : String

/-- The Grid Descriptor of a georeferenced grid. -/
def GeoGrid.descriptor (g : GeoGrid) : Descriptor :=
  ⟨g.grid.height, g.grid.width, g.transform, g.crs⟩

/-- Source lines 29–41, `reproject_to_match(src_path, match_profile)`:
the destination array is allocated with the match profile's
(height, width), and the external `rasterio.warp.reproject` — modelled
as an arbitrary resampler `resample`, since its bilinear interpolation
is outside this repository — fills it with values georeferenced by the
`dst_transform` and `dst_crs` taken from the match profile. -/
def reproject_to_match (resample : GeoGrid → Transform → String → ℕ → ℕ → Val)
    (src : GeoGrid) (match_profile : Profile) : GeoGrid :=
  let dst : NGrid := ⟨match_profile.height, match_profile.width,
    resample src match_profile.transform match_profile.crs⟩
  ⟨dst, match_profile.transform, match_profile.crs⟩

/-- A raster as written to disk: the profile used for creation plus the
single band written. -/
structure SavedRaster where
  profile : Profile
  band : NGrid

/-- Source lines 49–53, `save_tif(path, arr, profile)`:
`prof = profile.copy()`;
`prof.update(dtype="float32", count=1, nodata=np.nan)`;
`dst.write(arr.astype("float32"), 1)`.
The float32 cast is the identity on model samples. -/
def save_tif (arr : NGrid) (profile : Profile) : SavedRaster :=
  let prof := { profile with dtype := "float32", count := 1, nodata := none }
  ⟨prof, gMap (fun v => v) arr⟩

/-- Source line 113: `deforest_mask.astype("float32")`, the cast of a
boolean array to floats 0.0 / 1.0. -/
def bool_to_float32 (M : BGrid) : NGrid :=
  ⟨M.height, M.width, fun i j => some (if M.data i j then 1 else 0)⟩

/-- Source lines 78 and 88, the intra-date alignment guard:
`if red.shape != nir.shape:` (the aligner runs only when this is true). -/
def intra_align_needed (red nir : NGrid) : Bool :=
  decide (shape red ≠ shape nir)

/-- Source line 95, the inter-date alignment guard:
`if ndvi20.shape != ndvi24.shape or (tfm20 != tfm24):`. -/
def inter_align_needed (ndvi20 ndvi24 : NGrid) (tfm20 tfm24 : Transform) : Bool :=
  decide (shape ndvi20 ≠ shape ndvi24) || decide (tfm20 ≠ tfm24)

/-- Source line 110: `THRESH = -0.2`. -/
def THRESH : ℚ := -0.2

/-- Source line 101: `diff = ndvi24 - ndvi20` (later minus earlier). -/
def diffGrid (ndvi24 ndvi20 : NGrid) : NGrid :=
  gZipWith vSub ndvi24 ndvi20

/-- Source line 111: `valid = (~np.isnan(ndvi20)) & (~np.isnan(ndvi24))`. -/
def validGrid (ndvi20 ndvi24 : NGrid) : BGrid :=
  ⟨ndvi20.height, ndvi20.width, fun i j =>
    !(vIsNaN (ndvi20.data i j)) && !(vIsNaN (ndvi24.data i j))⟩

/-- Source line 112: `deforest_mask = (diff < THRESH) & valid`. -/
def deforest_mask (ndvi20 ndvi24 : NGrid) : BGrid :=
  ⟨(diffGrid ndvi24 ndvi20).height, (diffGrid ndvi24 ndvi20).width, fun i j =>
    vLtB ((diffGrid ndvi24 ndvi20).data i j) THRESH
      && (validGrid ndvi20 ndvi24).data i j⟩

/-- The count `np.count_nonzero` of a boolean array: the number of true
entries over the array's extent. -/
def countNonzero (A : BGrid) : ℕ :=
  ((Finset.range A.height ×ˢ Finset.range A.width).filter
    (fun p => A.data p.1 p.2 = true)).card

/-- Source line 117: `px_w = abs(prof["transform"][0])`. -/
def px_w (t : Transform) : ℚ :=
  |t.a|

/-- Source line 118: `px_h = abs(prof["transform"][4])`. -/
def px_h (t : Transform) : ℚ :=
  |t.e|

/-- Source line 119: `m2_per_pixel = px_w * px_h`. -/
def m2_per_pixel (t : Transform) : ℚ :=
  px_w t * px_h t

/-- Source line 120: `ha_per_pixel = m2_per_pixel / 10_000.0`. -/
def ha_per_pixel (t : Transform) : ℚ :=
  m2_per_pixel t / 10000

/-- Source lines 122 and 125: `defor_ha = np.count_nonzero(deforest_mask) * ha_per_pixel`. -/
def defor_ha (mask : BGrid) (t : Transform) : ℚ :=
  countNonzero mask * ha_per_pixel t

/-- Source lines 123 and 126: `total_ha = np.count_nonzero(valid) * ha_per_pixel`. -/
def total_ha (valid : BGrid) (t : Transform) : ℚ :=
  countNonzero valid * ha_per_pixel t

/-- Source line 127:
`defor_pct = (defor_ha / total_ha * 100) if total_ha > 0 else np.nan`. -/
def defor_pct (mask valid : BGrid) (t : Transform) : Val :=
  if 0 < total_ha valid t then some (defor_ha mask t / total_ha valid t * 100)
  else none

/-- One tail of the glob pattern: the extension literal `.tif`. -/
def tifChars : List Char :=
  ['.', 't', 'i', 'f']

/-- Whether `needle` occurs contiguously inside `hay`. -/
def listContains (needle hay : List Char) : Bool :=
  hay.tails.any fun t => needle.isPrefixOf t

/-- Source line 14, the glob pattern `*{band_tag}*.tif*`: a name
matches when it can be split as
`anything ++ band_tag ++ anything ++ ".tif" ++ anything`. -/
def matchesBandPatt (band_tag name : List Char) : Bool :=
  name.tails.any fun t =>
    band_tag.isPrefixOf t && listContains tifChars (t.drop band_tag.length)

/-- Lexicographic order on names, as Python's `sorted` uses. -/
def strLe : List Char → List Char → Bool
  | [], _ => true
  | _ :: _, [] => false
  | a :: as, b :: bs => if a = b then strLe as bs else decide (a < b)

/-- The message of the error raised on source line 17. -/
def noBandMsg (band_tag : List Char) : List Char :=
  "No encontré ".toList ++ band_tag

/-- Source lines 13–18, `find_band(dirpath, band_tag)`: glob the
directory's listing for `*{band_tag}*.tif*`, sort, raise
`FileNotFoundError` when nothing matched, else return the first match. -/
def find_band (dirFiles : List (List Char)) (band_tag : List Char) :
    Except (List Char) (List Char) :=
  match (dirFiles.filter (matchesBandPatt band_tag)).mergeSort strLe with
  | [] => Except.error (noBandMsg band_tag)
  | f :: _ => Except.ok f

/-- Earlier-date index raster of the spec's end-to-end scenario B. -/
def scenB_earlier : NGrid :=
  ⟨1, 1, fun _ _ => some 0.5⟩

/-- Later-date index raster of the spec's end-to-end scenario B. -/
def scenB_later : NGrid :=
  ⟨1, 1, fun _ _ => some 0.1⟩

/-- Earlier-date index raster of the spec's end-to-end scenario C. -/
def scenC_earlier : NGrid :=
  ⟨1, 1, fun _ _ => some 0.5⟩

/-- Later-date index raster of the spec's end-to-end scenario C. -/
def scenC_later : NGrid :=
  ⟨1, 1, fun _ _ => some 0.35⟩

/-- A 10 m × 10 m pixel transform used as a concrete georeference. -/
def sampleTransform : Transform :=
  ⟨10, 0, 600000, 0, -10, 1600020⟩

/-- A grid whose descriptor differs from `crs_only_g2`'s only in CRS. -/
def crs_only_g1 : GeoGrid :=
  ⟨⟨2, 2, fun _ _ => some 0⟩, sampleTransform, "EPSG:32615"⟩

/-- A grid whose descriptor differs from `crs_only_g1`'s only in CRS. -/
def crs_only_g2 : GeoGrid :=
  ⟨⟨2, 2, fun _ _ => some 0⟩, sampleTransform, "EPSG:32616"⟩

/-- Claim C2: `compute_ndvi` yields, at each pixel, NaN where
`nir + red == 0`, and otherwise `(nir - red) / (nir + red)` clipped into
the closed interval [-1, 1]; for finite inputs with nonzero sum the
result lies in [-1, 1], and NaN inputs yield NaN outputs. -/
theorem compute_ndvi_correct (nir red : NGrid) (i j : ℕ) :
    (∀ n r : ℚ, nir.data i j = some n → red.data i j = some r →
      ((n + r = 0 → (compute_ndvi nir red).data i j = none) ∧
       (n + r ≠ 0 →
         (compute_ndvi nir red).data i j
             = some (min 1 (max (-1) ((n - r) / (n + r)))) ∧
         -1 ≤ min 1 (max (-1) ((n - r) / (n + r))) ∧
         min 1 (max (-1) ((n - r) / (n + r))) ≤ 1)))
    ∧ ((vIsNaN (nir.data i j) = true ∨ vIsNaN (red.data i j) = true) →
        (compute_ndvi nir red).data i j = none) := by
  constructor
  · intro n r hn hr
    constructor
    · intro h0
      simp [compute_ndvi, gClip, gMap, gWhereZeroNan, gZipWith, vAdd, vClip,
        vEqZero, hn, hr, h0]
    · intro h0
      refine ⟨?_, le_min (by norm_num) (le_max_left _ _), min_le_left _ _⟩
      simp [compute_ndvi, gClip, gMap, gWhereZeroNan, gZipWith, vAdd, vSub,
        vDiv, vClip, vEqZero, hn, hr, h0]
  · intro h
    rcases h with h | h
    · have hn : nir.data i j = none := by
        cases hv : nir.data i j with
        | none => rfl
        | some q => rw [hv] at h; simp [vIsNaN] at h
      simp [compute_ndvi, gClip, gMap, gWhereZeroNan, gZipWith, vAdd, vSub,
        vDiv, vClip, vEqZero, hn]
    · have hr : red.data i j = none := by
        cases hv : red.data i j with
        | none => rfl
        | some q => rw [hv] at h; simp [vIsNaN] at h
      cases hv : nir.data i j with
      | none =>
        simp [compute_ndvi, gClip, gMap, gWhereZeroNan, gZipWith, vAdd, vSub,
          vDiv, vClip, vEqZero, hv]
      | some q =>
        simp [compute_ndvi, gClip, gMap, gWhereZeroNan, gZipWith, vAdd, vSub,
          vDiv, vClip, vEqZero, hv, hr]

/-- Claim C3: the change mask is a subset of the validity mask — a
flagged pixel has both dates' indices defined there. -/
theorem deforest_mask_subset_valid (ndvi20 ndvi24 : NGrid) (i j : ℕ)
    (h : (deforest_mask ndvi20 ndvi24).data i j = true) :
    (validGrid ndvi20 ndvi24).data i j = true := by
  simp [deforest_mask, Bool.and_eq_true] at h
  exact h.2

/-- Witness for `deforest_mask_subset_valid` at scenario B's grids. -/
theorem deforest_mask_subset_valid_witness :
    (validGrid scenB_earlier scenB_later).data 0 0 = true :=
  deforest_mask_subset_valid scenB_earlier scenB_later 0 0 (by
    norm_num [deforest_mask, diffGrid, validGrid, gZipWith, vSub, vLtB,
      vIsNaN, THRESH, scenB_earlier, scenB_later])

/-- Claim C4: at a pixel with both dates defined, the mask holds exactly
when the difference is strictly below the threshold; equality with the
threshold is not flagged, any difference below it is. -/
theorem deforest_threshold_strict (ndvi20 ndvi24 : NGrid) (i j : ℕ) (d : ℚ)
    (hv : (validGrid ndvi20 ndvi24).data i j = true)
    (hd : (diffGrid ndvi24 ndvi20).data i j = some d) :
    ((deforest_mask ndvi20 ndvi24).data i j = true ↔ d < THRESH) := by
  simp [deforest_mask, hd, hv, vLtB]

/-- Witness for `deforest_threshold_strict`: scenario with the
difference exactly at the threshold, which is not flagged. -/
theorem deforest_threshold_strict_witness :
    (deforest_mask ⟨1, 1, fun _ _ => some 0.5⟩ ⟨1, 1, fun _ _ => some 0.3⟩).data 0 0
      = false := by
  have h := deforest_threshold_strict ⟨1, 1, fun _ _ => some 0.5⟩
    ⟨1, 1, fun _ _ => some 0.3⟩ 0 0 (-0.2)
    (by norm_num [validGrid, vIsNaN])
    (by norm_num [diffGrid, gZipWith, vSub])
  have h2 : ¬ ((deforest_mask ⟨1, 1, fun _ _ => some 0.5⟩
      ⟨1, 1, fun _ _ => some 0.3⟩).data 0 0 = true) := by
    rw [h]; norm_num [THRESH]
  simpa using h2

/-- Claim C7: the difference grid is the later index minus the earlier
index elementwise; in scenario B (earlier 0.5, later 0.1, threshold
-0.2) the difference is -0.4 and the pixel is flagged. -/
theorem diff_later_minus_earlier (ndvi24 ndvi20 : NGrid) (i j : ℕ) :
    (∀ a b : ℚ, ndvi24.data i j = some a → ndvi20.data i j = some b →
      (diffGrid ndvi24 ndvi20).data i j = some (a - b))
    ∧ (diffGrid scenB_later scenB_earlier).data 0 0 = some (-0.4)
    ∧ (deforest_mask scenB_earlier scenB_later).data 0 0 = true := by
  refine ⟨?_, ?_, ?_⟩
  · intro a b ha hb
    simp [diffGrid, gZipWith, vSub, ha, hb]
  · norm_num [diffGrid, gZipWith, vSub, scenB_earlier, scenB_later]
  · norm_num [deforest_mask, diffGrid, validGrid, gZipWith, vSub, vLtB,
      vIsNaN, THRESH, scenB_earlier, scenB_later]

/-- Claim C5: the percentage is `defor_ha / total_ha * 100` whenever the
valid area is positive, and is NaN — not an error — when the valid pixel
count is zero. -/
theorem defor_pct_division_guard (mask valid : BGrid) (t : Transform) :
    (0 < total_ha valid t →
      defor_pct mask valid t
        = some (defor_ha mask t / total_ha valid t * 100))
    ∧ (countNonzero valid = 0 →
      total_ha valid t = 0 ∧ defor_pct mask valid t = none) := by
  constructor
  · intro h
    simp only [defor_pct]
    rw [if_pos h]
  · intro h
    have ht : total_ha valid t = 0 := by simp [total_ha, h]
    refine ⟨ht, ?_⟩
    simp only [defor_pct, ht]
    norm_num

/-- Helper: a pointwise implication between same-shape boolean grids
bounds the count of true pixels. -/
theorem countNonzero_mono (A B : BGrid) (hh : A.height = B.height)
    (hw : A.width = B.width)
    (himp : ∀ i j, A.data i j = true → B.data i j = true) :
    countNonzero A ≤ countNonzero B := by
  unfold countNonzero
  rw [hh, hw]
  apply Finset.card_le_card
  intro p hp
  rw [Finset.mem_filter] at hp ⊢
  exact ⟨hp.1, himp p.1 p.2 hp.2⟩

/-- Helper: the pixel-to-hectare factor is nonnegative. -/
theorem ha_per_pixel_nonneg (t : Transform) : 0 ≤ ha_per_pixel t := by
  unfold ha_per_pixel m2_per_pixel px_w px_h
  positivity

/-- Claim C6: for the mask and validity grid the Change Detector derives
from two same-shape index rasters, the flagged area never exceeds the
valid area, and whenever the valid area is positive the reported
percentage lies in [0, 100]. -/
theorem area_accounting_bounds (ndvi20 ndvi24 : NGrid) (t : Transform)
    (hh : ndvi20.height = ndvi24.height) (hw : ndvi20.width = ndvi24.width) :
    defor_ha (deforest_mask ndvi20 ndvi24) t
        ≤ total_ha (validGrid ndvi20 ndvi24) t
    ∧ ∀ q : ℚ, 0 < total_ha (validGrid ndvi20 ndvi24) t →
        defor_pct (deforest_mask ndvi20 ndvi24) (validGrid ndvi20 ndvi24) t
          = some q →
        0 ≤ q ∧ q ≤ 100 := by
  have hcount : countNonzero (deforest_mask ndvi20 ndvi24)
      ≤ countNonzero (validGrid ndvi20 ndvi24) := by
    apply countNonzero_mono
    · simp [deforest_mask, validGrid, diffGrid, gZipWith, hh]
    · simp [deforest_mask, validGrid, diffGrid, gZipWith, hw]
    · intro i j hm
      simp [deforest_mask, Bool.and_eq_true] at hm
      exact hm.2
  have hha := ha_per_pixel_nonneg t
  have hle : defor_ha (deforest_mask ndvi20 ndvi24) t
      ≤ total_ha (validGrid ndvi20 ndvi24) t := by
    unfold defor_ha total_ha
    exact mul_le_mul_of_nonneg_right (by exact_mod_cast hcount) hha
  refine ⟨hle, ?_⟩
  intro q hpos hq
  have hq' : q = defor_ha (deforest_mask ndvi20 ndvi24) t
      / total_ha (validGrid ndvi20 ndvi24) t * 100 := by
    simp only [defor_pct] at hq
    rw [if_pos hpos] at hq
    exact (Option.some_injective ℚ hq).symm
  have hdnn : 0 ≤ defor_ha (deforest_mask ndvi20 ndvi24) t := by
    unfold defor_ha
    exact mul_nonneg (Nat.cast_nonneg _) hha
  constructor
  · rw [hq']
    positivity
  · rw [hq']
    have hdiv : defor_ha (deforest_mask ndvi20 ndvi24) t
        / total_ha (validGrid ndvi20 ndvi24) t ≤ 1 :=
      (div_le_one hpos).mpr hle
    calc defor_ha (deforest_mask ndvi20 ndvi24) t
          / total_ha (validGrid ndvi20 ndvi24) t * 100
        ≤ 1 * 100 := by
          exact mul_le_mul_of_nonneg_right hdiv (by norm_num)
      _ = 100 := by norm_num

/-- Witness for `area_accounting_bounds` at scenario B's grids and a
10 m pixel. -/
theorem area_accounting_bounds_witness :
    defor_ha (deforest_mask scenB_earlier scenB_later) sampleTransform
      ≤ total_ha (validGrid scenB_earlier scenB_later) sampleTransform :=
  (area_accounting_bounds scenB_earlier scenB_later sampleTransform rfl rfl).1

/-- Counterexample to claim C1: two grids whose descriptors differ (in
CRS only) for which neither the intra-date nor the inter-date guard
invokes the Grid Aligner. -/
theorem align_guard_misses_crs_difference :
    crs_only_g1.descriptor ≠ crs_only_g2.descriptor
    ∧ intra_align_needed crs_only_g1.grid crs_only_g2.grid = false
    ∧ inter_align_needed crs_only_g1.grid crs_only_g2.grid
        crs_only_g1.transform crs_only_g2.transform = false := by
  refine ⟨?_, ?_, ?_⟩
  · intro h
    have hc := congrArg Descriptor.crs h
    simp [GeoGrid.descriptor, crs_only_g1, crs_only_g2] at hc
  · simp [intra_align_needed, shape, crs_only_g1, crs_only_g2]
  · simp [inter_align_needed, shape, crs_only_g1, crs_only_g2]

/-- Claim C1 as amended: the intra-date guard invokes the Grid Aligner
exactly when the two grids' shapes differ, and the inter-date guard
exactly when the shapes or the affine transforms differ; a difference
confined to the CRS (or, intra-date, to the transform or CRS) does not
trigger alignment. -/
theorem align_guards_shape_transform_only (red nir n20 n24 : NGrid)
    (t20 t24 : Transform) :
    (intra_align_needed red nir = true ↔ shape red ≠ shape nir)
    ∧ (inter_align_needed n20 n24 t20 t24 = true
        ↔ (shape n20 ≠ shape n24 ∨ t20 ≠ t24)) := by
  constructor
  · simp [intra_align_needed]
  · simp [inter_align_needed]

/-- Claim C8: the grid the Grid Aligner returns carries the target
profile's descriptor — its shape is the target's (height, width) and it
is georeferenced by the target's transform and CRS — for any resampler
filling the destination. -/
theorem reproject_to_match_descriptor
    (resample : GeoGrid → Transform → String → ℕ → ℕ → Val)
    (src : GeoGrid) (match_profile : Profile) :
    (reproject_to_match resample src match_profile).grid.height
        = match_profile.height
    ∧ (reproject_to_match resample src match_profile).grid.width
        = match_profile.width
    ∧ (reproject_to_match resample src match_profile).descriptor
        = match_profile.descriptor :=
  ⟨rfl, rfl, rfl⟩

/-- Claim C10: every raster written goes out single-band with dtype
float32 and no-data NaN, whatever the incoming profile carried; and a
written change mask holds only the float values 0.0 and 1.0. -/
theorem save_tif_float32_profile (arr : NGrid) (profile : Profile)
    (M : BGrid) (i j : ℕ) :
    (save_tif arr profile).profile.dtype = "float32"
    ∧ (save_tif arr profile).profile.count = 1
    ∧ (save_tif arr profile).profile.nodata = none
    ∧ ((save_tif (bool_to_float32 M) profile).band.data i j = some 0
        ∨ (save_tif (bool_to_float32 M) profile).band.data i j = some 1) := by
  refine ⟨rfl, rfl, rfl, ?_⟩
  simp only [save_tif, bool_to_float32, gMap]
  cases M.data i j <;> simp

/-- Claim C9: the band lookup fails with the not-found error exactly
when no file in the directory matches the band tag pattern; when at
least one file matches, it returns a matching path and raises nothing. -/
theorem find_band_correct (dirFiles : List (List Char)) (band_tag : List Char) :
    ((∃ f, find_band dirFiles band_tag = Except.ok f)
      ↔ ∃ f ∈ dirFiles, matchesBandPatt band_tag f = true)
    ∧ (∀ f, find_band dirFiles band_tag = Except.ok f →
        f ∈ dirFiles ∧ matchesBandPatt band_tag f = true)
    ∧ (find_band dirFiles band_tag = Except.error (noBandMsg band_tag)
      ↔ ∀ f ∈ dirFiles, matchesBandPatt band_tag f = false) := by
  have hp := List.mergeSort_perm (dirFiles.filter (matchesBandPatt band_tag)) strLe
  rcases hL : (dirFiles.filter (matchesBandPatt band_tag)).mergeSort strLe
    with _ | ⟨f0, fs⟩
  · rw [hL] at hp
    have hfil : dirFiles.filter (matchesBandPatt band_tag) = [] :=
      List.Perm.eq_nil hp.symm
    have hnone : ∀ f ∈ dirFiles, ¬ matchesBandPatt band_tag f = true := by
      rw [List.filter_eq_nil_iff] at hfil
      exact hfil
    simp only [find_band, hL]
    refine ⟨?_, ?_, ?_⟩
    · constructor
      · rintro ⟨f, hf⟩
        simp at hf
      · rintro ⟨f, hfmem, hfm⟩
        exact absurd hfm (hnone f hfmem)
    · intro f hf
      simp at hf
    · constructor
      · intro _ f hfmem
        simpa using hnone f hfmem
      · intro _
        trivial
  · have hf0 : f0 ∈ dirFiles.filter (matchesBandPatt band_tag) := by
      have hmem0 : f0 ∈ (dirFiles.filter (matchesBandPatt band_tag)).mergeSort strLe := by
        rw [hL]
        exact List.mem_cons_self f0 fs
      exact hp.mem_iff.mp hmem0
    have hmem := List.mem_filter.mp hf0
    simp only [find_band, hL]
    refine ⟨?_, ?_, ?_⟩
    · constructor
      · rintro ⟨f, hf⟩
        exact ⟨f0, hmem.1, hmem.2⟩
      · intro _
        exact ⟨f0, rfl⟩
    · intro f hf
      have hEq : f0 = f := by simpa using hf
      rw [← hEq]
      exact ⟨hmem.1, hmem.2⟩
    · constructor
      · intro he
        simp at he
      · intro hall
        exfalso
        have hfalse := hall f0 hmem.1
        rw [hmem.2] at hfalse
        exact absurd hfalse (by decide)
